import Mathlib

-- Verification development for the StudyMate repository.
-- The definitions below are a shallow embedding of the Python source files
-- backend/guardrails.py, backend/rag_engine.py and backend/config.py.
-- Python unicode strings are modelled by Lean String (one Char per Python
-- character); Python floats are modelled by exact rationals; wall-clock
-- fields (processing_time, timestamps) are omitted because they carry no
-- logical content.  External collaborators (the OpenAI LLM and the vector
-- store) are modelled as oracle functions; a `none` oracle answer models
-- the call raising or its reply failing to parse, exactly the cases the
-- Python code catches with try/except.

namespace StudyMate

-- Character classes of the Python `re` module (ASCII range, which covers
-- every character the source patterns can match).
def isWordChar (c : Char) : Bool := c.isAlphanum || c == '_'

-- Python \s for the default (unicode) flavour restricted to ASCII.
def isSpaceChar (c : Char) : Bool :=
  c == ' ' || c == '\t' || c == '\n' || c == '\r' || c == '\x0b' || c == '\x0c'

def isWordOpt : Option Char → Bool
  | none => false
  | some c => isWordChar c

-- A word boundary \b holds between two (possibly absent) adjacent
-- characters exactly when one side is a word character and the other not.
def boundaryB (a b : Option Char) : Bool := isWordOpt a != isWordOpt b

-- Backtracking matchers.  `M` consumes characters from the front of the
-- remaining text; each alternative result records the last character
-- consumed so far together with the remaining text, so that the trailing
-- word boundary of a pattern can be decided by the search driver.
abbrev M := Char → List Char → List (Char × List Char)

def mChar (p : Char → Bool) : M := fun _ s =>
  match s with
  | [] => []
  | c :: rest => if p c then [(c, rest)] else []

def mSeq (f g : M) : M := fun lc s => (f lc s).flatMap fun r => g r.1 r.2

def mAlt (f g : M) : M := fun lc s => f lc s ++ g lc s

def mOpt (f : M) : M := fun lc s => (lc, s) :: f lc s

-- Zero or more characters of a class (all stop points, i.e. the
-- backtracking choices of a greedy `*` over a character class).
def mManyC (p : Char → Bool) : M
  | lc, [] => [(lc, [])]
  | lc, c :: rest => (lc, c :: rest) :: (if p c then mManyC p c rest else [])

def mMany1C (p : Char → Bool) : M := mSeq (mChar p) (mManyC p)

-- Exactly n characters of a class, as in \d{3}.
def mExactC : Nat → (Char → Bool) → M
  | 0, _ => fun lc s => [(lc, s)]
  | n + 1, p => fun _ s =>
    match s with
    | [] => []
    | c :: rest => if p c then mExactC n p c rest else []

-- At most n further characters of a class (the optional tail of \d{1,5}).
def mUpToC : Nat → (Char → Bool) → M
  | 0, _ => fun lc s => [(lc, s)]
  | n + 1, p => fun lc s =>
    match s with
    | [] => [(lc, [])]
    | c :: rest => (lc, c :: rest) :: (if p c then mUpToC n p c rest else [])

def mStr : List Char → M
  | [] => fun lc s => [(lc, s)]
  | w :: ws => fun _ s =>
    match s with
    | [] => []
    | c :: rest => if c == w then mStr ws c rest else []

-- re.search of a pattern of the shape \b CORE \b : try every start
-- position; every CORE used by the source begins by consuming a mandatory
-- character, so the leading boundary is the boundary between the previous
-- character and the head of the remaining text.
def searchM (core : M) : Option Char → List Char → Bool
  | _, [] => false
  | prev, c :: rest =>
    (boundaryB prev (some c) &&
      (core ' ' (c :: rest)).any fun r => boundaryB (some r.1) r.2.head?)
    || searchM core (some c) rest

def reSearch (core : M) (s : String) : Bool := searchM core none s.data

-- Alternation of plain words, e.g. \b(sex|sexual|porn|xxx|nsfw)\b.
def wAlt (ws : List String) : M :=
  ws.foldr (fun w acc => mAlt (mStr w.data) acc) (fun _ _ => [])

-- A pattern of the shape \b(w1.*w2)\b, e.g. exam.*hack; `.` does not
-- match a newline.
def gapPat (w1 w2 : String) : M :=
  mSeq (mStr w1.data) (mSeq (mManyC (fun c => !(c == '\n'))) (mStr w2.data))

-- self.inappropriate_patterns from guardrails._init_patterns, one entry
-- per Python regex, in source order.
def inappropriate_patterns : List M :=
  [ wAlt ["sex", "sexual", "porn", "xxx", "nsfw"],
    wAlt ["drug", "drugs", "cocaine", "heroin", "marijuana", "weed"],
    wAlt ["violence", "violent", "kill", "murder", "rape", "assault"],
    wAlt ["hate", "hateful", "racist", "racism", "nazi", "kkk"],
    mAlt (wAlt ["cheat", "cheating"]) (mAlt (gapPat "exam" "hack") (gapPat "test" "hack")),
    wAlt ["hack", "hacking", "exploit", "malware", "virus"],
    mAlt (wAlt ["suicide"]) (mAlt (gapPat "self" "harm") (wAlt ["cutting"])),
    mAlt (wAlt ["alcohol", "beer", "wine", "liquor"]) (gapPat "get" "drunk"),
    wAlt ["gambling", "casino", "bet", "lottery"],
    wAlt ["weapon", "gun", "knife", "bomb", "explosive"] ]

-- self.personal_info_patterns, one entry per Python regex.
def sepOptM : M := mOpt (mChar fun c => c == '-' || c == '.')

-- \b\d{3}[-.]?\d{3}[-.]?\d{4}\b  (phone numbers)
def phonePattern : M :=
  mSeq (mExactC 3 Char.isDigit) (mSeq sepOptM
    (mSeq (mExactC 3 Char.isDigit) (mSeq sepOptM (mExactC 4 Char.isDigit))))

-- \b\d{3}[-.]?\d{2}[-.]?\d{4}\b  (SSN)
def ssnPattern : M :=
  mSeq (mExactC 3 Char.isDigit) (mSeq sepOptM
    (mSeq (mExactC 2 Char.isDigit) (mSeq sepOptM (mExactC 4 Char.isDigit))))

def emailLocalChar (c : Char) : Bool :=
  c.isAlpha || c.isDigit || c == '.' || c == '_' || c == '%' || c == '+' || c == '-'

def emailDomainChar (c : Char) : Bool :=
  c.isAlpha || c.isDigit || c == '.' || c == '-'

-- The character class [A-Z|a-z] of the source literally includes the bar.
def emailTldChar (c : Char) : Bool := c.isAlpha || c == '|'

-- \b[A-Za-z0-9._%+-]+@[A-Za-z0-9.-]+\.[A-Z|a-z]{2,}\b  (email)
def emailPattern : M :=
  mSeq (mMany1C emailLocalChar) (mSeq (mChar (· == '@'))
    (mSeq (mMany1C emailDomainChar) (mSeq (mChar (· == '.'))
      (mSeq (mExactC 2 emailTldChar) (mManyC emailTldChar)))))

-- \b\d{1,5}\s\w+\s\w+\b  (address patterns)
def addressPattern : M :=
  mSeq (mChar Char.isDigit) (mSeq (mUpToC 4 Char.isDigit)
    (mSeq (mChar isSpaceChar) (mSeq (mMany1C isWordChar)
      (mSeq (mChar isSpaceChar) (mMany1C isWordChar)))))

-- \b(password|login|username|credential)\b
def credentialPattern : M := wAlt ["password", "login", "username", "credential"]

def personal_info_patterns : List M :=
  [phonePattern, ssnPattern, emailPattern, addressPattern, credentialPattern]

-- Python substring containment (`needle in hay`).
def isInfixB (w : List Char) : List Char → Bool
  | [] => w.isEmpty
  | c :: rest => w.isPrefixOf (c :: rest) || isInfixB w rest

def containsSub (needle hay : String) : Bool := isInfixB needle.data hay.data

-- Python text.lower() (ASCII case mapping, which covers every character
-- the source compares after lowering).
def pyLower (s : String) : String := ⟨s.data.map Char.toLower⟩

-- Python text.strip(): remove leading and trailing whitespace.
def pyStrip (s : String) : String :=
  ⟨((s.data.dropWhile isSpaceChar).reverse.dropWhile isSpaceChar).reverse⟩

-- sep.join(pieces).
def joinWith (sep : String) : List String → String
  | [] => ""
  | [x] => x
  | x :: y :: rest => x ++ sep ++ joinWith sep (y :: rest)

-- Python text.split(): whitespace-separated words, empties dropped.
def pyWordsAux : List Char → List Char → List String
  | [], acc => if acc.isEmpty then [] else [⟨acc.reverse⟩]
  | c :: rest, acc =>
    if isSpaceChar c then
      if acc.isEmpty then pyWordsAux rest []
      else (⟨acc.reverse⟩ : String) :: pyWordsAux rest []
    else pyWordsAux rest (c :: acc)

def pyWords (t : String) : List String := pyWordsAux t.data []

def pyWordCount (t : String) : Nat := (pyWords t).length

-- Python text[:n] for n ≥ 0.
def pyTake (s : String) (n : Nat) : String := ⟨s.data.take n⟩

-- `not text or not text.strip()`: empty or whitespace-only.
def isBlank (s : String) : Bool := s.data.all isSpaceChar

-- Number of keywords of the list occurring (as substrings) in the text:
-- sum(1 for keyword in keywords if keyword in text).
def countContained (ws : List String) (t : String) : Nat :=
  (ws.filter fun w => containsSub w t).length

-- Enumerations of guardrails.py.

inductive SafetyLevel where
  | SAFE
  | WARNING
  | DANGEROUS
  | BLOCKED
deriving DecidableEq, Repr

inductive ContentCategory where
  | educational
  | inappropriate
  | harmful
  | misleading
  | cheating
  | personal_info
  | off_topic
deriving DecidableEq, Repr

-- The .value string of each enum member.
def ContentCategory.value : ContentCategory → String
  | .educational => "educational"
  | .inappropriate => "inappropriate"
  | .harmful => "harmful"
  | .misleading => "misleading"
  | .cheating => "cheating"
  | .personal_info => "personal_info"
  | .off_topic => "off_topic"

-- ContentCategory(s): the enum constructor; `none` models the ValueError
-- raised on an unknown value.
def categoryOfValue (s : String) : Option ContentCategory :=
  if s == "educational" then some .educational
  else if s == "inappropriate" then some .inappropriate
  else if s == "harmful" then some .harmful
  else if s == "misleading" then some .misleading
  else if s == "cheating" then some .cheating
  else if s == "personal_info" then some .personal_info
  else if s == "off_topic" then some .off_topic
  else none

-- dataclass GuardrailResult (processing_time omitted: wall clock).
structure GuardrailResult where
  is_safe : Bool
  safety_level : SafetyLevel
  blocked_category : Option ContentCategory
  reason : String
  sanitized_text : String
  confidence_score : ℚ
deriving DecidableEq, Repr

-- An entry of metrics.recent_blocks (timestamp omitted: wall clock).
structure BlockEntry where
  query : String
  category : String
  reason : String
deriving DecidableEq, Repr

-- dataclass SafetyMetrics; category_counts is the insertion-ordered dict.
structure SafetyMetrics where
  total_queries : Nat
  safe_queries : Nat
  blocked_queries : Nat
  warning_queries : Nat
  category_counts : List (String × Nat)
  recent_blocks : List BlockEntry
deriving DecidableEq, Repr

-- SafetyMetrics() with the __post_init__ defaults.
def SafetyMetrics.init : SafetyMetrics := ⟨0, 0, 0, 0, [], []⟩

-- The configuration values guardrails.py and rag_engine.py read from
-- backend/config.py (an environment-dependent surface, hence a parameter).
structure GuardConfig where
  max_query_length : Nat
  max_response_length : Nat
  enable_guardrails : Bool
  top_k : Nat
deriving Repr

-- The config.py defaults: MAX_QUERY_LENGTH=500, MAX_RESPONSE_LENGTH=2000,
-- ENABLE_GUARDRAILS=true, TOP_K=10.
def defaultConfig : GuardConfig :=
  { max_query_length := 500
    max_response_length := 2000
    enable_guardrails := true
    top_k := 10 }

-- The parsed JSON dict returned by the policy-judge LLM; each key may be
-- missing (the Python code reads every key with .get and a default).
structure JudgeResult where
  is_safe : Option Bool
  category : Option String
  reason : Option String
  confidence : Option ℚ
deriving DecidableEq, Repr

-- StudyMateGuardrails._llm_based_check: the oracle argument is the parsed
-- reply of the judge LLM; `none` models the call raising or its reply
-- failing to parse, which the except-branch turns into the fail-open
-- default dict.
def llm_based_check (oracle : Option JudgeResult) : JudgeResult :=
  match oracle with
  | some r => r
  | none =>
    { is_safe := some true
      category := some "educational"
      reason := some "Validation error, defaulting to safe"
      confidence := some 0.5 }

-- The keyword lists of _init_patterns.
def educational_keywords : List String :=
  [ "study", "learn", "understand", "explain", "chapter", "lesson",
    "homework", "assignment", "concept", "theory", "practice",
    "example", "question", "answer", "review", "summary" ]

def cheating_indicators : List String :=
  ["how to cheat", "cheat on", "hack exam", "steal answers"]

def suspicious_words : List String :=
  ["party", "game", "movie", "music", "sport", "celebrity"]

-- The three pattern-family tests of _rule_based_check.  The Python code
-- lowers the text once at the top of the method; lowering inside each
-- test is equivalent because every test that uses the lowered text
-- receives the same text.
def matchesInappropriate (text : String) : Bool :=
  inappropriate_patterns.any fun p => reSearch p (pyLower text)

def matchesPersonalInfo (text : String) : Bool :=
  personal_info_patterns.any fun p => reSearch p text

def matchesCheating (text : String) : Bool :=
  cheating_indicators.any fun w => containsSub w (pyLower text)

-- StudyMateGuardrails._rule_based_check.  Python returns the triple
-- (is_safe, category, reason) where category is None exactly when
-- is_safe; this is packaged as Option (category, reason).
def rule_based_check (text : String) : Option (ContentCategory × String) :=
  if matchesInappropriate text then
    some (.inappropriate, "Contains inappropriate content")
  else if matchesPersonalInfo text then
    some (.personal_info, "Contains personal information")
  else if matchesCheating text then
    some (.cheating, "Academic dishonesty attempt detected")
  else
    let educational_score := countContained educational_keywords (pyLower text)
    if pyWordCount text > 10 ∧ educational_score < 2 then
      let suspicious_score := countContained suspicious_words (pyLower text)
      if suspicious_score > educational_score then
        some (.off_topic, "Query appears off-topic for educational assistant")
      else none
    else none

-- _sanitize_text: " ".join(text.split()) followed by .strip() (the strip
-- is the identity on the joined words, kept for fidelity).
def sanitize_text (text : String) : String :=
  pyStrip (joinWith " " (pyWords text))

-- _sanitize_response: the fixed replacement string.
def sanitize_response_text : String :=
  "I\x27m sorry, but I can\x27t provide that information. Let\x27s focus on your studies! 📚"

-- Python dict bump: counts[k] = counts.get(k, 0) + 1 (insertion order kept).
def bumpCount : List (String × Nat) → String → List (String × Nat)
  | [], k => [(k, 1)]
  | (k', v) :: rest, k =>
    if k' == k then (k', v + 1) :: rest else (k', v) :: bumpCount rest k

-- query[:100] + "..." if len(query) > 100 else query
def truncatedQuery (q : String) : String :=
  if q.length > 100 then pyTake q 100 ++ "..." else q

instance instDecEqExcept {ε α : Type} [DecidableEq ε] [DecidableEq α] :
    DecidableEq (Except ε α) := fun a b =>
  match a, b with
  | .error e, .error e' =>
    if h : e = e' then isTrue (by rw [h])
    else isFalse (by intro hh; cases hh; exact h rfl)
  | .ok x, .ok y =>
    if h : x = y then isTrue (by rw [h])
    else isFalse (by intro hh; cases hh; exact h rfl)
  | .error _, .ok _ => isFalse (by intro hh; cases hh)
  | .ok _, .error _ => isFalse (by intro hh; cases hh)

-- Outcome of validate_input: the returned GuardrailResult (or a raised
-- exception, Except.error) together with the mutated metrics object.
structure ValidateOutcome where
  result : Except Unit GuardrailResult
  metrics : SafetyMetrics
deriving DecidableEq, Repr

-- StudyMateGuardrails.validate_input.  The judge argument is the oracle
-- reply of the input-policy LLM (see llm_based_check).  The Except.error
-- case models the uncaught ValueError from ContentCategory(...) on an
-- unknown category string.
def validate_input (cfg : GuardConfig) (judge : Option JudgeResult)
    (m0 : SafetyMetrics) (query : String) : ValidateOutcome :=
  let m := { m0 with total_queries := m0.total_queries + 1 }
  if isBlank query then
    ⟨.ok ⟨false, .BLOCKED, some .off_topic, "Empty query", "", 1.0⟩, m⟩
  else if query.length > cfg.max_query_length then
    ⟨.ok ⟨false, .BLOCKED, some .off_topic,
        "Query too long (max " ++ toString cfg.max_query_length ++ " characters)",
        pyTake query cfg.max_query_length, 1.0⟩, m⟩
  else
    match rule_based_check query with
    | some rc =>
      let mB := { m with
        blocked_queries := m.blocked_queries + 1
        category_counts := bumpCount m.category_counts rc.1.value
        recent_blocks := m.recent_blocks ++ [⟨truncatedQuery query, rc.1.value, rc.2⟩] }
      ⟨.ok ⟨false, .BLOCKED, some rc.1, rc.2, sanitize_text query, 0.9⟩, mB⟩
    | none =>
      if cfg.enable_guardrails then
        let llm_result := llm_based_check judge
        if !(llm_result.is_safe.getD true) then
          match categoryOfValue (llm_result.category.getD "inappropriate") with
          | none => ⟨.error (), m⟩
          | some category =>
            let mB := { m with
              blocked_queries := m.blocked_queries + 1
              category_counts := bumpCount m.category_counts category.value }
            ⟨.ok ⟨false, .BLOCKED, some category,
                llm_result.reason.getD "LLM validation failed",
                sanitize_text query, llm_result.confidence.getD 0.8⟩, mB⟩
        else
          ⟨.ok ⟨true, .SAFE, none, "Query passed all safety checks",
              sanitize_text query, 0.95⟩,
            { m with safe_queries := m.safe_queries + 1 }⟩
      else
        ⟨.ok ⟨true, .SAFE, none, "Query passed all safety checks",
            sanitize_text query, 0.95⟩,
          { m with safe_queries := m.safe_queries + 1 }⟩

-- StudyMateGuardrails.validate_output.  It touches no metrics field: the
-- metrics object is returned unchanged on every path.
def validate_output (cfg : GuardConfig) (judge : Option JudgeResult)
    (m : SafetyMetrics) (response : String) :
    Except Unit GuardrailResult × SafetyMetrics :=
  if response.length > cfg.max_response_length then
    (.ok ⟨false, .WARNING, some .off_topic,
        "Response too long (truncated to " ++ toString cfg.max_response_length ++ " characters)",
        pyTake response cfg.max_response_length ++ "...", 0.8⟩, m)
  else
    match rule_based_check response with
    | some rc =>
      (.ok ⟨false, .BLOCKED, some rc.1, "Response contains " ++ rc.2,
          sanitize_response_text, 0.9⟩, m)
    | none =>
      if cfg.enable_guardrails then
        let llm_result := llm_based_check judge
        if !(llm_result.is_safe.getD true) then
          match categoryOfValue (llm_result.category.getD "inappropriate") with
          | none => (.error (), m)
          | some category =>
            (.ok ⟨false, .BLOCKED, some category,
                llm_result.reason.getD "Response validation failed",
                sanitize_response_text, llm_result.confidence.getD 0.8⟩, m)
        else
          (.ok ⟨true, .SAFE, none, "Response passed all safety checks",
              response, 0.95⟩, m)
      else
        (.ok ⟨true, .SAFE, none, "Response passed all safety checks",
            response, 0.95⟩, m)

-- The dictionary returned by StudyMateGuardrails.get_metrics.
structure MetricsView where
  total_queries : Nat
  safe_queries : Nat
  blocked_queries : Nat
  warning_queries : Nat
  safe_percentage : ℚ
  blocked_percentage : ℚ
  category_breakdown : List (String × Nat)
  recent_blocks : List BlockEntry
deriving DecidableEq, Repr

-- StudyMateGuardrails.get_metrics; recent_blocks[-10:] is the suffix of
-- length at most 10, i.e. drop (length - 10).
def get_metrics (m : SafetyMetrics) : MetricsView :=
  { total_queries := m.total_queries
    safe_queries := m.safe_queries
    blocked_queries := m.blocked_queries
    warning_queries := m.warning_queries
    safe_percentage :=
      if m.total_queries > 0 then (m.safe_queries : ℚ) / m.total_queries * 100 else 0
    blocked_percentage :=
      if m.total_queries > 0 then (m.blocked_queries : ℚ) / m.total_queries * 100 else 0
    category_breakdown := m.category_counts
    recent_blocks := m.recent_blocks.drop (m.recent_blocks.length - 10) }

-- A sequence of validate_input calls against one gate instance, threading
-- the metrics state (the judge oracle reply is held fixed).
def runInputs (cfg : GuardConfig) (judge : Option JudgeResult)
    (qs : List String) (m : SafetyMetrics) : SafetyMetrics :=
  qs.foldl (fun acc q => (validate_input cfg judge acc q).metrics) m

-- Enumerations of rag_engine.py.

inductive QualityLevel where
  | EXCELLENT
  | GOOD
  | FAIR
  | POOR
deriving DecidableEq, Repr

inductive RetrievalLevel where
  | PRIMARY
  | SECONDARY
  | TERTIARY
  | QUATERNARY
  | FALLBACK
deriving DecidableEq, Repr

-- Position of a level in the ordered ladder of the spec
-- (PRIMARY, SECONDARY, TERTIARY, QUATERNARY, FALLBACK).
def RetrievalLevel.rank : RetrievalLevel → Nat
  | .PRIMARY => 0
  | .SECONDARY => 1
  | .TERTIARY => 2
  | .QUATERNARY => 3
  | .FALLBACK => 4

-- dataclass ContextEvaluation.
structure ContextEvaluation where
  relevance_score : ℚ
  completeness_score : ℚ
  clarity_score : ℚ
  quality_level : QualityLevel
  needs_correction : Bool
  reasoning : String
deriving DecidableEq, Repr

-- The parsed JSON dict returned by the evaluator LLM; keys may be missing
-- (read with scores.get and a 0.5 default).
structure EvalScores where
  relevance_score : Option ℚ
  completeness_score : Option ℚ
  clarity_score : Option ℚ
  reasoning : Option String
deriving DecidableEq, Repr

-- StudyMateRAG._evaluate_context.  The oracle is the evaluator LLM: it is
-- applied to the query and to the truncated context (context[:2000], the
-- text the prompt embeds); `none` models the call raising or its reply
-- failing to parse.  The second component counts how many times the LLM
-- was invoked (0 on the empty-context short-circuit, 1 otherwise).
def evaluate_context (oracle : String → String → Option EvalScores)
    (query context : String) : ContextEvaluation × Nat :=
  if isBlank context then
    (⟨0, 0, 0, .POOR, true, "No context retrieved"⟩, 0)
  else
    let scores :=
      match oracle query (pyTake context 2000) with
      | some s => s
      | none =>
        { relevance_score := some 0.5
          completeness_score := some 0.5
          clarity_score := some 0.5
          reasoning := some "Evaluation parsing failed" }
    let avg_score := (scores.relevance_score.getD 0.5 +
      scores.completeness_score.getD 0.5 + scores.clarity_score.getD 0.5) / 3
    let tier : QualityLevel × Bool :=
      if avg_score ≥ 0.8 then (.EXCELLENT, false)
      else if avg_score ≥ 0.6 then (.GOOD, false)
      else if avg_score ≥ 0.4 then (.FAIR, true)
      else (.POOR, true)
    (⟨scores.relevance_score.getD 0.5, scores.completeness_score.getD 0.5,
      scores.clarity_score.getD 0.5, tier.1, tier.2,
      scores.reasoning.getD ""⟩, 1)

-- A langchain Document as the retrieval levels use it: page_content plus
-- the metadata "page" entry (none when the key is absent; the empty
-- string models any other falsy value).
structure Doc where
  page_content : String
  page : Option String
deriving DecidableEq, Repr

-- "\n\n".join(doc.page_content for doc in docs if doc.page_content)
def joinDocs (docs : List Doc) : String :=
  joinWith "\n\n"
    ((docs.filter fun d => !d.page_content.data.isEmpty).map fun d => d.page_content)

-- The external collaborators of one StudyMateRAG instance, as oracles.
-- `none` from an oracle models the corresponding call raising (caught by
-- the try/except of the owning method).  hasVectorstore models
-- `self.vectorstore` being non-None.
structure Env where
  cfg : GuardConfig
  judgeIn : Option JudgeResult
  judgeOut : Option JudgeResult
  hasVectorstore : Bool
  search : String → Nat → Option (List Doc)
  expandSemantic : String → Option String
  expandCrossDomain : String → Option String
  refineOracle : String → String → Option String
  generate : String → String → String
  evalOracle : String → String → Option EvalScores

-- StudyMateRAG._retrieve_primary (k defaults to config.TOP_K).
def retrieve_primary (env : Env) (query : String) : List Doc × String :=
  if !env.hasVectorstore then ([], "")
  else
    match env.search query env.cfg.top_k with
    | none => ([], "")
    | some docs => if docs.isEmpty then ([], "") else (docs, joinDocs docs)

-- StudyMateRAG._retrieve_secondary: fixed keyword expansion, k = TOP_K+2.
def retrieve_secondary (env : Env) (query : String) : List Doc × String :=
  if !env.hasVectorstore then ([], "")
  else
    match env.search (query ++ " definition explanation example concept theory principle")
        (env.cfg.top_k + 2) with
    | none => ([], "")
    | some docs => if docs.isEmpty then ([], "") else (docs, joinDocs docs)

-- StudyMateRAG._retrieve_tertiary: LLM semantic expansion, k = TOP_K+4.
def retrieve_tertiary (env : Env) (query : String) : List Doc × String :=
  if !env.hasVectorstore then ([], "")
  else
    match env.expandSemantic query with
    | none => ([], "")
    | some expanded =>
      match env.search (pyStrip expanded) (env.cfg.top_k + 4) with
      | none => ([], "")
      | some docs => if docs.isEmpty then ([], "") else (docs, joinDocs docs)

-- StudyMateRAG._retrieve_quaternary: cross-domain expansion appended to
-- the original query, k = TOP_K+6.
def retrieve_quaternary (env : Env) (query : String) : List Doc × String :=
  if !env.hasVectorstore then ([], "")
  else
    match env.expandCrossDomain query with
    | none => ([], "")
    | some cross =>
      match env.search (query ++ " " ++ pyStrip cross) (env.cfg.top_k + 6) with
      | none => ([], "")
      | some docs => if docs.isEmpty then ([], "") else (docs, joinDocs docs)

-- StudyMateRAG._refine_query: LLM rewrite guided by the evaluator
-- reasoning; on failure the original query is returned unchanged.
def refine_query (env : Env) (original_query : String)
    (evaluation : ContextEvaluation) : String :=
  match env.refineOracle original_query evaluation.reasoning with
  | none => original_query
  | some r => pyStrip r

-- dataclass RAGResponse (processing_time omitted: wall clock).
structure RAGResponse where
  answer : String
  context_quality : QualityLevel
  retrieval_level : RetrievalLevel
  sources : List String
  was_corrected : Bool
  guardrail_passed : Bool
  confidence : String
  safety_check : GuardrailResult
  completeness_score : ℚ
  specificity_score : ℚ
deriving DecidableEq, Repr

-- The collaborator invocations the Orchestrator can make, for call-count
-- properties.
inductive CallEvent where
  | validateInput
  | retrievePrimary
  | evaluateContext
  | retrieveSecondary
  | refineQuery
  | retrieveTertiary
  | retrieveQuaternary
  | generateAnswer
  | validateOutput
deriving DecidableEq, Repr

-- The scratch state of the multi-level fallback of StudyMateRAG.query
-- (step 4): the docs/context/evaluation/level/was_corrected variables
-- after the escalation ladder, the query used for the last evaluation,
-- and the collaborator calls the ladder made.
structure EscState where
  docs : List Doc
  context : String
  evaluation : ContextEvaluation
  level : RetrievalLevel
  was_corrected : Bool
  queryUsed : String
  events : List CallEvent
deriving Repr

-- Step 4 of StudyMateRAG.query, started from the PRIMARY retrieval
-- outcome and its evaluation.
def escalate (env : Env) (safe_query : String) (docs0 : List Doc)
    (context0 : String) (eval0 : ContextEvaluation) : EscState :=
  if eval0.needs_correction then
    let p1 := retrieve_secondary env safe_query
    let eval1 := (evaluate_context env.evalOracle safe_query p1.2).1
    if eval1.needs_correction then
      let refined_query := refine_query env safe_query eval1
      let p2 := retrieve_tertiary env refined_query
      let eval2 := (evaluate_context env.evalOracle refined_query p2.2).1
      if eval2.needs_correction then
        let p3 := retrieve_quaternary env refined_query
        let eval3 := (evaluate_context env.evalOracle refined_query p3.2).1
        ⟨p3.1, p3.2, eval3, .QUATERNARY, true, refined_query,
          [.retrieveSecondary, .evaluateContext, .refineQuery,
            .retrieveTertiary, .evaluateContext, .retrieveQuaternary, .evaluateContext]⟩
      else
        ⟨p2.1, p2.2, eval2, .TERTIARY, true, refined_query,
          [.retrieveSecondary, .evaluateContext, .refineQuery,
            .retrieveTertiary, .evaluateContext]⟩
    else
      ⟨p1.1, p1.2, eval1, .SECONDARY, false, safe_query,
        [.retrieveSecondary, .evaluateContext]⟩
  else
    ⟨docs0, context0, eval0, .PRIMARY, false, safe_query, []⟩

-- The fixed strings of StudyMateRAG.query.
def noInfoAnswer : String :=
  "I couldn\x27t find any relevant information in your uploaded document. Please make sure you\x27ve uploaded a study material and try rephrasing your question."

def outputBlockedAnswer : String :=
  "I\x27m sorry, but I need to provide a different response. Let\x27s focus on your studies! 📚"

-- list(set("Page {page}" for doc in docs if doc.metadata.get("page")))
def sourcesOf (docs : List Doc) : List String :=
  (docs.filterMap fun d =>
    match d.page with
    | some p => if p.data.isEmpty then none else some ("Page " ++ p)
    | none => none).foldl
    (fun acc x => if acc.contains x then acc else acc ++ [x]) []

def confidenceLabel : QualityLevel → String
  | .EXCELLENT => "High 🌟"
  | .GOOD => "Good 👍"
  | .FAIR => "Medium 🤔"
  | .POOR => "Low ❓"

-- StudyMateRAG.query: the Orchestrator.  Returns the RAGResponse (or a
-- propagated exception), the guardrail metrics after the run, and the
-- ordered list of collaborator invocations made.
def ragQuery (env : Env) (m0 : SafetyMetrics) (user_query : String) :
    Except Unit RAGResponse × SafetyMetrics × List CallEvent :=
  let vi := validate_input env.cfg env.judgeIn m0 user_query
  match vi.result with
  | .error e => (.error e, vi.metrics, [.validateInput])
  | .ok input_check =>
    if !input_check.is_safe then
      (.ok { answer := input_check.reason
             context_quality := .POOR
             retrieval_level := .FALLBACK
             sources := []
             was_corrected := false
             guardrail_passed := false
             confidence := "N/A"
             safety_check := input_check
             completeness_score := 0
             specificity_score := 0 },
        vi.metrics, [.validateInput])
    else
      let safe_query := input_check.sanitized_text
      let pr := retrieve_primary env safe_query
      if pr.1.isEmpty then
        (.ok { answer := noInfoAnswer
               context_quality := .POOR
               retrieval_level := .FALLBACK
               sources := []
               was_corrected := false
               guardrail_passed := true
               confidence := "Low"
               safety_check := input_check
               completeness_score := 0
               specificity_score := 0 },
          vi.metrics, [.validateInput, .retrievePrimary])
      else
        let eval0 := (evaluate_context env.evalOracle safe_query pr.2).1
        let st := escalate env safe_query pr.1 pr.2 eval0
        let answer0 := pyStrip (env.generate st.context safe_query)
        let vo := validate_output env.cfg env.judgeOut vi.metrics answer0
        let events := [CallEvent.validateInput, .retrievePrimary, .evaluateContext]
          ++ st.events ++ [.generateAnswer, .validateOutput]
        match vo.1 with
        | .error e => (.error e, vo.2, events)
        | .ok output_check =>
          (.ok { answer := if !output_check.is_safe then outputBlockedAnswer else answer0
                 context_quality := st.evaluation.quality_level
                 retrieval_level := st.level
                 sources := sourcesOf st.docs
                 was_corrected := st.was_corrected
                 guardrail_passed := output_check.is_safe
                 confidence := confidenceLabel st.evaluation.quality_level
                 safety_check := input_check
                 completeness_score := st.evaluation.completeness_score * 100
                 specificity_score := st.evaluation.relevance_score * 100 },
            vo.2, events)

-- Modelled from the spec (section 4.3): the quality tier as a pure
-- function of the unweighted mean of the three scores, used to compare
-- the tier computed by _evaluate_context against the spec wording.
def specQualityOfMean (mean : ℚ) : QualityLevel :=
  if mean ≥ 0.8 then .EXCELLENT
  else if mean ≥ 0.6 then .GOOD
  else if mean ≥ 0.4 then .FAIR
  else .POOR

-- Concrete instances used by witnesses and counterexamples.

-- A StudyMateRAG instance with no vector store (vectorstore=None) and the
-- safety subsystem disabled via configuration.
def env0 : Env :=
  { cfg := { max_query_length := 500
             max_response_length := 2000
             enable_guardrails := false
             top_k := 10 }
    judgeIn := none
    judgeOut := none
    hasVectorstore := false
    search := fun _ _ => none
    expandSemantic := fun _ => none
    expandCrossDomain := fun _ => none
    refineOracle := fun _ _ => none
    generate := fun _ _ => ""
    evalOracle := fun _ _ => none }

-- 501 letters: a non-blank input longer than the default limit of 500.
def longA : String := ⟨List.replicate 501 'a'⟩

-- 501 spaces: a whitespace-only input longer than the default limit.
def longBlank : String := ⟨List.replicate 501 ' '⟩

-- An 11-word query with one suspicious term and no educational term.
def offTopicQuery : String :=
  "please tell me about the party held at your house yesterday"

-- Theorems.

/-- C1 counterexample: the input "my email is john@example.com and i like
drugs" matches the email personal-data pattern, yet validate_input blocks
it with category inappropriate (the unsafe-topic family is tested first),
not personal-info — so the claim fails for inputs whose surrounding text
matches an earlier pattern family. -/
theorem c1_counterexample :
    reSearch emailPattern "my email is john@example.com and i like drugs" = true ∧
    (validate_input defaultConfig none SafetyMetrics.init
        "my email is john@example.com and i like drugs").result =
      .ok ⟨false, .BLOCKED, some .inappropriate, "Contains inappropriate content",
        sanitize_text "my email is john@example.com and i like drugs", 0.9⟩ ∧
    ContentCategory.inappropriate ≠ ContentCategory.personal_info :=
  ⟨rfl, rfl, by decide⟩

/-- C1 amended: for every non-blank input within the configured length
limit that matches a personal-data pattern and does NOT match the
unsafe-topic (inappropriate) family — which is tested first —
validate_input returns a BLOCKED verdict with category personal-info,
regardless of the remaining surrounding text. -/
theorem c1_personal_info_blocked (cfg : GuardConfig) (judge : Option JudgeResult)
    (m : SafetyMetrics) (q : String)
    (hb : isBlank q = false) (hl : q.length ≤ cfg.max_query_length)
    (hi : matchesInappropriate q = false) (hp : matchesPersonalInfo q = true) :
    (validate_input cfg judge m q).result =
      .ok ⟨false, .BLOCKED, some .personal_info, "Contains personal information",
        sanitize_text q, 0.9⟩ := by
  have hr : rule_based_check q =
      some (.personal_info, "Contains personal information") := by
    unfold rule_based_check
    rw [hi, hp]
    simp
  unfold validate_input
  rw [hb]
  simp only [Bool.false_eq_true, if_false]
  rw [if_neg (by omega), hr]

/-- C1 witness: a concrete email-bearing input with no unsafe-topic word is
blocked with category personal-info. -/
theorem c1_witness :
    (validate_input defaultConfig none SafetyMetrics.init "contact john@example.com").result =
      .ok ⟨false, .BLOCKED, some .personal_info, "Contains personal information",
        sanitize_text "contact john@example.com", 0.9⟩ :=
  c1_personal_info_blocked defaultConfig none SafetyMetrics.init
    "contact john@example.com" (by decide) (by decide) (by decide) (by decide)

/-- C2: on non-blank context and a parsed evaluator reply with scores r, c,
cl, the evaluation passes the three scores through, its quality tier is the
pure function of the unweighted mean given by the spec thresholds
(≥0.8 EXCELLENT, [0.6,0.8) GOOD, [0.4,0.6) FAIR, <0.4 POOR), and
needs_correction holds exactly for FAIR and POOR. -/
theorem c2_quality_tier (r c cl : ℚ) (q ctx : String) (h : isBlank ctx = false) :
    (evaluate_context (fun _ _ => some ⟨some r, some c, some cl, some ""⟩) q ctx).1 =
      ⟨r, c, cl, specQualityOfMean ((r + c + cl) / 3),
        (specQualityOfMean ((r + c + cl) / 3) == .FAIR
          || specQualityOfMean ((r + c + cl) / 3) == .POOR), ""⟩ := by
  unfold evaluate_context specQualityOfMean
  rw [h]
  simp only [Bool.false_eq_true, if_false, Option.getD_some]
  split_ifs <;> rfl

/-- C2 witness: tier and needs-correction flag at concrete scores
0.9/0.8/0.7 (mean 0.8, tier EXCELLENT, no correction). -/
theorem c2_witness :
    (evaluate_context (fun _ _ => some ⟨some 0.9, some 0.8, some 0.7, some ""⟩)
        "what is a noun" "a noun is a word that names a thing").1 =
      ⟨0.9, 0.8, 0.7, specQualityOfMean ((0.9 + 0.8 + 0.7) / 3),
        (specQualityOfMean ((0.9 + 0.8 + 0.7) / 3) == .FAIR
          || specQualityOfMean ((0.9 + 0.8 + 0.7) / 3) == .POOR), ""⟩ :=
  c2_quality_tier 0.9 0.8 0.7 "what is a noun"
    "a noun is a word that names a thing" (by decide)

/-- C5 counterexample: an 11-word text containing only ONE suspicious
leisure term ("party") and no educational term is blocked as off-topic by
validate_input, although the claim requires at least 2 suspicious terms —
the code blocks whenever the suspicious count merely exceeds the
educational count. -/
theorem c5_counterexample :
    pyWordCount offTopicQuery > 10 ∧
    countContained suspicious_words (pyLower offTopicQuery) = 1 ∧
    countContained educational_keywords (pyLower offTopicQuery) = 0 ∧
    (validate_input defaultConfig none SafetyMetrics.init offTopicQuery).result =
      .ok ⟨false, .BLOCKED, some .off_topic,
        "Query appears off-topic for educational assistant",
        sanitize_text offTopicQuery, 0.9⟩ :=
  ⟨by decide, by decide, by decide, rfl⟩

/-- C5 amended: in the content filter, a text of more than 10 words that
matches no earlier pattern family is flagged off-topic exactly when it
contains fewer than 2 educational terms and STRICTLY MORE suspicious
leisure-topic terms than educational terms. -/
theorem c5_off_topic_rule (q : String) (hw : pyWordCount q > 10)
    (hi : matchesInappropriate q = false) (hp : matchesPersonalInfo q = false)
    (hc : matchesCheating q = false) :
    rule_based_check q =
      (if countContained educational_keywords (pyLower q) < 2 ∧
          countContained suspicious_words (pyLower q) >
            countContained educational_keywords (pyLower q)
        then some (.off_topic, "Query appears off-topic for educational assistant")
        else none) := by
  unfold rule_based_check
  rw [hi, hp, hc]
  simp only [Bool.false_eq_true, if_false]
  by_cases h1 : countContained educational_keywords (pyLower q) < 2
  · by_cases h2 : countContained suspicious_words (pyLower q) >
        countContained educational_keywords (pyLower q)
    · rw [if_pos ⟨hw, h1⟩, if_pos h2, if_pos ⟨h1, h2⟩]
    · rw [if_pos ⟨hw, h1⟩, if_neg h2, if_neg (by tauto)]
  · rw [if_neg (by tauto), if_neg (by tauto)]

/-- C5 witness: the amended rule evaluated at the 11-word one-suspicious
query (flagged, because 0 educational terms and 1 suspicious beats 0). -/
theorem c5_witness :
    rule_based_check offTopicQuery =
      (if countContained educational_keywords (pyLower offTopicQuery) < 2 ∧
          countContained suspicious_words (pyLower offTopicQuery) >
            countContained educational_keywords (pyLower offTopicQuery)
        then some (.off_topic, "Query appears off-topic for educational assistant")
        else none) :=
  c5_off_topic_rule offTopicQuery (by decide) (by decide) (by decide) (by decide)

set_option maxRecDepth 8192 in
/-- C6 counterexample: a whitespace-only input of 501 characters exceeds
the configured limit of 500, yet validate_input takes the empty-query
branch first and returns sanitized_text "" of length 0, not 500 — the
over-length clause of the claim fails for blank over-length inputs. -/
theorem c6_counterexample :
    longBlank.length > defaultConfig.max_query_length ∧
    (validate_input defaultConfig none SafetyMetrics.init longBlank).result =
      .ok ⟨false, .BLOCKED, some .off_topic, "Empty query", "", 1.0⟩ ∧
    ("" : String).length ≠ defaultConfig.max_query_length :=
  ⟨by decide, rfl, by decide⟩

/-- C6 amended: for every NON-BLANK input longer than the configured
maximum, validate_input returns BLOCKED with sanitized_text of length
exactly the configured limit; and for every empty or whitespace-only
input it returns BLOCKED with category off-topic. -/
theorem c6_length_and_blank (cfg : GuardConfig) (judge : Option JudgeResult)
    (m : SafetyMetrics) (q : String) :
    (isBlank q = false → q.length > cfg.max_query_length →
      (validate_input cfg judge m q).result =
        .ok ⟨false, .BLOCKED, some .off_topic,
          "Query too long (max " ++ toString cfg.max_query_length ++ " characters)",
          pyTake q cfg.max_query_length, 1.0⟩ ∧
      (pyTake q cfg.max_query_length).length = cfg.max_query_length) ∧
    (isBlank q = true →
      (validate_input cfg judge m q).result =
        .ok ⟨false, .BLOCKED, some .off_topic, "Empty query", "", 1.0⟩) := by
  constructor
  · intro hb hl
    constructor
    · unfold validate_input
      rw [hb]
      simp only [Bool.false_eq_true, if_false]
      rw [if_pos hl]
    · show (q.data.take cfg.max_query_length).length = cfg.max_query_length
      rw [List.length_take]
      have : cfg.max_query_length < q.data.length := hl
      omega
  · intro hb
    unfold validate_input
    rw [hb]
    simp

set_option maxRecDepth 8192 in
/-- C6 witness: a 501-letter input is truncated to exactly 500 characters,
and a single space is rejected as an empty query. -/
theorem c6_witness :
    ((validate_input defaultConfig none SafetyMetrics.init longA).result =
        .ok ⟨false, .BLOCKED, some .off_topic,
          "Query too long (max " ++ toString defaultConfig.max_query_length ++ " characters)",
          pyTake longA defaultConfig.max_query_length, 1.0⟩ ∧
      (pyTake longA defaultConfig.max_query_length).length = defaultConfig.max_query_length) ∧
    (validate_input defaultConfig none SafetyMetrics.init " ").result =
      .ok ⟨false, .BLOCKED, some .off_topic, "Empty query", "", 1.0⟩ :=
  ⟨(c6_length_and_blank defaultConfig none SafetyMetrics.init longA).1
      (by decide) (by decide),
    (c6_length_and_blank defaultConfig none SafetyMetrics.init " ").2 (by decide)⟩

/-- C7: on empty or whitespace-only context the evaluator returns all
scores 0, tier POOR and needs_correction, with zero LLM invocations
(the second component counts them), for every query and every oracle. -/
theorem c7_empty_context (oracle : String → String → Option EvalScores)
    (q ctx : String) (h : isBlank ctx = true) :
    evaluate_context oracle q ctx =
      (⟨0, 0, 0, .POOR, true, "No context retrieved"⟩, 0) := by
  unfold evaluate_context
  rw [h]
  simp

/-- C7 witness: the empty context at a concrete query and oracle. -/
theorem c7_witness :
    evaluate_context (fun _ _ => none) "what is a noun" "" =
      (⟨0, 0, 0, .POOR, true, "No context retrieved"⟩, 0) :=
  c7_empty_context (fun _ _ => none) "what is a noun" "" (by decide)

/-- C8: when the policy-judge reply fails to parse (oracle none), the
judge step defaults to admit with confidence 0.5, and validate_input on an
input passing the earlier checks returns SAFE — a judge failure never by
itself blocks an input (for any configuration, guardrails enabled or
not). -/
theorem c8_judge_fail_open (cfg : GuardConfig) (m : SafetyMetrics) (q : String)
    (hb : isBlank q = false) (hl : ¬ q.length > cfg.max_query_length)
    (hr : rule_based_check q = none) :
    llm_based_check none =
      ⟨some true, some "educational", some "Validation error, defaulting to safe",
        some 0.5⟩ ∧
    (validate_input cfg none m q).result =
      .ok ⟨true, .SAFE, none, "Query passed all safety checks",
        sanitize_text q, 0.95⟩ := by
  refine ⟨rfl, ?_⟩
  unfold validate_input
  rw [hb]
  simp only [Bool.false_eq_true, if_false]
  rw [if_neg hl, hr]
  cases hcfg : cfg.enable_guardrails <;> simp [llm_based_check]

/-- C8 witness: a benign query with a failing judge oracle is admitted
with the default configuration (guardrails enabled). -/
theorem c8_witness :
    llm_based_check none =
      ⟨some true, some "educational", some "Validation error, defaulting to safe",
        some 0.5⟩ ∧
    (validate_input defaultConfig none SafetyMetrics.init
        "summarize chapter two for review").result =
      .ok ⟨true, .SAFE, none, "Query passed all safety checks",
        sanitize_text "summarize chapter two for review", 0.95⟩ :=
  c8_judge_fail_open defaultConfig SafetyMetrics.init
    "summarize chapter two for review" (by decide) (by decide) (by decide)

/-- C9 counterexample: after 11 blocked queries the recent-rejection list
kept on the gate instance holds 11 entries, not at most 10 — the cap is
applied only by the get_metrics accessor, not by the stored log. -/
theorem c9_counterexample :
    (runInputs defaultConfig none (List.replicate 11 "drugs")
        SafetyMetrics.init).recent_blocks.length = 11 ∧
    ¬ ((runInputs defaultConfig none (List.replicate 11 "drugs")
        SafetyMetrics.init).recent_blocks.length ≤ 10) := by
  constructor
  · rfl
  · decide

/-- C9 amended: the recent-rejection log stored on the gate instance is
unbounded (one appended entry per rule-based rejection), but the
get_metrics accessor exposes at most the last 10 entries, for every
reachable or unreachable metrics state. -/
theorem c9_accessor_bounded (m : SafetyMetrics) :
    (get_metrics m).recent_blocks.length ≤ 10 := by
  show (m.recent_blocks.drop (m.recent_blocks.length - 10)).length ≤ 10
  rw [List.length_drop]
  omega

/-- C10: every validate_input call increments total_queries; the
empty-query and over-length rejection paths leave every other metrics
field unchanged; validate_output returns the metrics untouched; and after
one empty-query call safe+blocked+warning (0) is strictly below
total_queries (1). -/
theorem c10_metrics_accounting (cfg : GuardConfig) (judge : Option JudgeResult)
    (m : SafetyMetrics) (q resp : String) :
    ((validate_input cfg judge m q).metrics.total_queries = m.total_queries + 1) ∧
    (isBlank q = true →
      (validate_input cfg judge m q).metrics =
        { m with total_queries := m.total_queries + 1 }) ∧
    (isBlank q = false → q.length > cfg.max_query_length →
      (validate_input cfg judge m q).metrics =
        { m with total_queries := m.total_queries + 1 }) ∧
    ((validate_output cfg judge m resp).2 = m) ∧
    ((runInputs defaultConfig none [""] SafetyMetrics.init).safe_queries +
        (runInputs defaultConfig none [""] SafetyMetrics.init).blocked_queries +
        (runInputs defaultConfig none [""] SafetyMetrics.init).warning_queries <
      (runInputs defaultConfig none [""] SafetyMetrics.init).total_queries) := by
  refine ⟨?_, ?_, ?_, ?_, by decide⟩
  · simp only [validate_input]
    repeat' split
    all_goals rfl
  · intro hb
    unfold validate_input
    rw [hb]
    simp
  · intro hb hl
    unfold validate_input
    rw [hb]
    simp only [Bool.false_eq_true, if_false]
    rw [if_pos hl]
  · simp only [validate_output]
    repeat' split
    all_goals rfl

set_option maxRecDepth 8192 in
/-- C10 witness: the empty-query and over-length paths at concrete inputs
bump only total_queries. -/
theorem c10_witness :
    ((validate_input defaultConfig none SafetyMetrics.init "").metrics =
      { SafetyMetrics.init with total_queries := 1 }) ∧
    ((validate_input defaultConfig none SafetyMetrics.init longA).metrics =
      { SafetyMetrics.init with total_queries := 1 }) :=
  ⟨(c10_metrics_accounting defaultConfig none SafetyMetrics.init "" "x").2.1
      (by decide),
    (c10_metrics_accounting defaultConfig none SafetyMetrics.init longA "x").2.2.1
      (by decide) (by decide)⟩

-- Helper: in every outcome of the escalation ladder the was_corrected
-- flag equals "the level is TERTIARY or QUATERNARY".
theorem escalate_corrected_eq (env : Env) (sq : String) (d : List Doc)
    (c : String) (e : ContextEvaluation) :
    (escalate env sq d c e).was_corrected =
      ((escalate env sq d c e).level == RetrievalLevel.TERTIARY
        || (escalate env sq d c e).level == RetrievalLevel.QUATERNARY) := by
  simp only [escalate]
  split_ifs <;> rfl

/-- C3: whenever the input gate admits the query and PRIMARY retrieval
returns zero passages, the Orchestrator returns the terminal result with
retrieval_level FALLBACK, quality POOR, the fixed "couldn\x27t find any
relevant information" answer and guardrail_passed true, and its call
trace is exactly [validateInput, retrievePrimary]: the SECONDARY,
TERTIARY and QUATERNARY strategies, the query refiner and answer
generation are never invoked. -/
theorem c3_empty_primary_terminal (env : Env) (m : SafetyMetrics) (q : String)
    (ic : GuardrailResult)
    (h1 : (validate_input env.cfg env.judgeIn m q).result = .ok ic)
    (h2 : ic.is_safe = true)
    (h3 : (retrieve_primary env ic.sanitized_text).1 = []) :
    ragQuery env m q =
      (.ok { answer := noInfoAnswer
             context_quality := .POOR
             retrieval_level := .FALLBACK
             sources := []
             was_corrected := false
             guardrail_passed := true
             confidence := "Low"
             safety_check := ic
             completeness_score := 0
             specificity_score := 0 },
        (validate_input env.cfg env.judgeIn m q).metrics,
        [.validateInput, .retrievePrimary]) := by
  unfold ragQuery
  rcases hv : validate_input env.cfg env.judgeIn m q with ⟨res, m1⟩
  rw [hv] at h1
  simp only at h1
  subst h1
  simp only [h2, Bool.not_true, Bool.false_eq_true, if_false]
  rcases hpr : retrieve_primary env ic.sanitized_text with ⟨docs, ctx⟩
  rw [hpr] at h3
  simp only at h3
  subst h3
  rfl

/-- C3 witness: a StudyMateRAG instance without a vector store on an
admitted query terminates at the FALLBACK no-information result having
called only validate_input and the PRIMARY retrieval. -/
theorem c3_witness :
    ragQuery env0 SafetyMetrics.init "explain the lesson" =
      (.ok { answer := noInfoAnswer
             context_quality := .POOR
             retrieval_level := .FALLBACK
             sources := []
             was_corrected := false
             guardrail_passed := true
             confidence := "Low"
             safety_check := ⟨true, .SAFE, none, "Query passed all safety checks",
               "explain the lesson", 0.95⟩
             completeness_score := 0
             specificity_score := 0 },
        (validate_input env0.cfg env0.judgeIn SafetyMetrics.init
          "explain the lesson").metrics,
        [.validateInput, .retrievePrimary]) :=
  c3_empty_primary_terminal env0 SafetyMetrics.init "explain the lesson"
    ⟨true, .SAFE, none, "Query passed all safety checks",
      "explain the lesson", 0.95⟩ rfl rfl rfl

/-- C4 counterexample: the empty-store run terminates with
retrieval_level FALLBACK — which lies past SECONDARY in the ordered
ladder — while was_corrected is false, refuting "corrected iff the level
is past SECONDARY". -/
theorem c4_counterexample :
    (ragQuery env0 SafetyMetrics.init "explain the lesson").1.map
        (fun r => (r.was_corrected, r.retrieval_level)) =
      Except.ok (false, RetrievalLevel.FALLBACK) ∧
    RetrievalLevel.rank .FALLBACK > RetrievalLevel.rank .SECONDARY :=
  ⟨rfl, by decide⟩

/-- C4 amended: for every RAGResult the Orchestrator produces,
was_corrected holds exactly when the retrieval level is TERTIARY or
QUATERNARY (escalation past SECONDARY inside the retrieval ladder); the
terminal FALLBACK results always carry was_corrected = false. -/
theorem c4_corrected_iff_past_secondary (env : Env) (m : SafetyMetrics)
    (q : String) (r : RAGResponse) (m' : SafetyMetrics) (evs : List CallEvent)
    (h : ragQuery env m q = (.ok r, m', evs)) :
    r.was_corrected =
      (r.retrieval_level == RetrievalLevel.TERTIARY
        || r.retrieval_level == RetrievalLevel.QUATERNARY) := by
  unfold ragQuery at h
  rcases hv : validate_input env.cfg env.judgeIn m q with ⟨res, m1⟩
  rw [hv] at h
  cases res with
  | error e => simp at h
  | ok ic =>
    simp only at h
    by_cases hs : ic.is_safe
    · simp only [hs, Bool.not_true, Bool.false_eq_true, if_false] at h
      rcases hpr : retrieve_primary env ic.sanitized_text with ⟨docs, ctx⟩
      rw [hpr] at h
      by_cases hd : docs.isEmpty
      · simp only [hd, if_true] at h
        obtain ⟨hr, -, -⟩ := Prod.mk.injEq .. ▸ h
        obtain rfl := (Except.ok.injEq .. ▸ hr)
        rfl
      · simp only [hd, Bool.false_eq_true, if_false] at h
        rcases hvo : validate_output env.cfg env.judgeOut m1
            (pyStrip (env.generate
              (escalate env ic.sanitized_text docs ctx
                (evaluate_context env.evalOracle ic.sanitized_text ctx).1).context
              ic.sanitized_text)) with ⟨ores, m2⟩
        rw [hvo] at h
        cases ores with
        | error e => simp at h
        | ok oc =>
          simp only at h
          obtain ⟨hr, -, -⟩ := Prod.mk.injEq .. ▸ h
          obtain rfl := (Except.ok.injEq .. ▸ hr)
          exact escalate_corrected_eq env ic.sanitized_text docs ctx
            (evaluate_context env.evalOracle ic.sanitized_text ctx).1
    · simp only [hs, Bool.not_false, if_true] at h
      obtain ⟨hr, -, -⟩ := Prod.mk.injEq .. ▸ h
      obtain rfl := (Except.ok.injEq .. ▸ hr)
      rfl

/-- C4 witness: the amended equivalence applied to the concrete FALLBACK
run of the empty-store instance. -/
theorem c4_witness :
    ({ answer := noInfoAnswer
       context_quality := .POOR
       retrieval_level := .FALLBACK
       sources := []
       was_corrected := false
       guardrail_passed := true
       confidence := "Low"
       safety_check := ⟨true, .SAFE, none, "Query passed all safety checks",
         "explain the lesson", 0.95⟩
       completeness_score := 0
       specificity_score := 0 } : RAGResponse).was_corrected =
      (({ answer := noInfoAnswer
          context_quality := .POOR
          retrieval_level := .FALLBACK
          sources := []
          was_corrected := false
          guardrail_passed := true
          confidence := "Low"
          safety_check := ⟨true, .SAFE, none, "Query passed all safety checks",
            "explain the lesson", 0.95⟩
          completeness_score := 0
          specificity_score := 0 } : RAGResponse).retrieval_level == RetrievalLevel.TERTIARY
        || ({ answer := noInfoAnswer
              context_quality := .POOR
              retrieval_level := .FALLBACK
              sources := []
              was_corrected := false
              guardrail_passed := true
              confidence := "Low"
              safety_check := ⟨true, .SAFE, none, "Query passed all safety checks",
                "explain the lesson", 0.95⟩
              completeness_score := 0
              specificity_score := 0 } : RAGResponse).retrieval_level
          == RetrievalLevel.QUATERNARY) :=
  c4_corrected_iff_past_secondary env0 SafetyMetrics.init "explain the lesson"
    _ (validate_input env0.cfg env0.judgeIn SafetyMetrics.init
        "explain the lesson").metrics
    [.validateInput, .retrievePrimary] rfl

end StudyMate

